import Mathlib

/-!
Verification of the servo command/safety core of a robot-arm control API.

The development shallowly embeds the two core modules:
* `src/hardware/gpio_config.py` — the duty-cycle codec (pure functions over
  floats, embedded here over `ℚ`, i.e. exact arithmetic; a raised
  `ValueError` is embedded as `none`);
* `src/hardware/servo_controller.py` — the stateful `ServoController`
  (dict-backed registry and runtime state, embedded as association lists
  with explicit state passing; the `threading.Lock` only serializes calls
  and is elided, each embedded operation is one sequential call).

A `PWMOutputDevice` is modelled by the last duty-cycle value written to it
(its `value` attribute); construction of a device may fail in Python for
hardware reasons, so `initialize_servos` takes an oracle `ok` telling which
constructions succeed.
-/

namespace DumbArm

/-- Constant `CENTER_DUTY_CYCLE = 0.0696` from gpio_config.py. -/
def CENTER_DUTY_CYCLE : ℚ := 696 / 10000

/-- Constant `MIN_DUTY_CYCLE = 0.05` from gpio_config.py. -/
def MIN_DUTY_CYCLE : ℚ := 5 / 100

/-- Constant `MAX_DUTY_CYCLE = 0.10` from gpio_config.py. -/
def MAX_DUTY_CYCLE : ℚ := 10 / 100

/-- Embeds `gpio_config.speed_to_duty_cycle`.  A raised `ValueError` is `none`. -/
def speed_to_duty_cycle (speed : ℚ) : Option ℚ :=
  if ¬(-1 ≤ speed ∧ speed ≤ 1) then
    none
  else if speed = 0 then
    some CENTER_DUTY_CYCLE
  else if speed > 0 then
    some (CENTER_DUTY_CYCLE + speed * (MAX_DUTY_CYCLE - CENTER_DUTY_CYCLE))
  else
    some (CENTER_DUTY_CYCLE + speed * (CENTER_DUTY_CYCLE - MIN_DUTY_CYCLE))

/-- Embeds `gpio_config.duty_cycle_to_speed`.  A raised `ValueError` is `none`. -/
def duty_cycle_to_speed (duty_cycle : ℚ) : Option ℚ :=
  if ¬(MIN_DUTY_CYCLE ≤ duty_cycle ∧ duty_cycle ≤ MAX_DUTY_CYCLE) then
    none
  else if duty_cycle = CENTER_DUTY_CYCLE then
    some 0
  else if duty_cycle > CENTER_DUTY_CYCLE then
    some ((duty_cycle - CENTER_DUTY_CYCLE) / (MAX_DUTY_CYCLE - CENTER_DUTY_CYCLE))
  else
    some ((duty_cycle - CENTER_DUTY_CYCLE) / (CENTER_DUTY_CYCLE - MIN_DUTY_CYCLE))

/-- Dataclass `ServoState`: runtime state of one servo. -/
structure ServoState where
  speed : ℚ := 0
  is_running : Bool := false
deriving DecidableEq, Repr

/-- The mutable fields of `ServoController`: `_servos` maps a servo id to
its PWM device (modelled by the device's current `value`), `_servo_states`
maps it to its `ServoState`, `_emergency_stop_active` is the flag. -/
structure Controller where
  servos : List (String × ℚ) := []
  servo_states : List (String × ServoState) := []
  emergency_stop_active : Bool := false
deriving DecidableEq, Repr

/-- Lookup in an insertion-ordered dict (`id in d` / `d[id]`). -/
def lookupAssoc {β : Type} : List (String × β) → String → Option β
  | [], _ => none
  | p :: rest, k => if p.1 = k then some p.2 else lookupAssoc rest k

/-- Assignment `d[k] = v` for a key already present: replaces the value in
place, keeping insertion order. -/
def updateAssoc {β : Type} (l : List (String × β)) (k : String) (v : β) :
    List (String × β) :=
  l.map fun p => if p.1 = k then (k, v) else p

/-- One servo's entry in the configuration: (servo id, GPIO pin). -/
abbrev ServoConfig := String × Nat

/-- Loop body of `initialize_servos`: construct a PWM device per configured
servo (at `CENTER_DUTY_CYCLE`) and a default `ServoState`; on the first
construction failure return `False` at once, keeping what was built. -/
def initializeGo (ok : String → Nat → Bool) :
    List ServoConfig → Controller → Bool × Controller
  | [], c => (true, c)
  | (servo_id, pin) :: rest, c =>
    if ok servo_id pin then
      initializeGo ok rest
        { c with
          servos := c.servos ++ [(servo_id, CENTER_DUTY_CYCLE)],
          servo_states := c.servo_states ++ [(servo_id, {})] }
    else
      (false, c)

/-- Embeds `ServoController.initialize_servos`: clears the registry, then registers
every configured servo, fail-fast on the first construction failure.
`configs` is what `config.get_all_servos()` returns, `ok` tells which
`PWMOutputDevice` constructions succeed. -/
def initialize_servos (configs : List ServoConfig) (ok : String → Nat → Bool)
    (c : Controller) : Bool × Controller :=
  let c0 : Controller :=
    { c with servos := [], servo_states := [] }
  if configs.isEmpty then
    (false, c0)
  else
    initializeGo ok configs c0

/-- Embeds `ServoController.set_servo_speed`: refused while the emergency-stop flag
is set or for an unknown id; otherwise converts the speed to a duty cycle
(a codec `ValueError` is caught and turned into `False`), writes it to the
device and updates the runtime state. -/
def set_servo_speed (c : Controller) (servo_id : String) (speed : ℚ) :
    Bool × Controller :=
  if c.emergency_stop_active then
    (false, c)
  else if (lookupAssoc c.servos servo_id).isNone then
    (false, c)
  else
    match speed_to_duty_cycle speed with
    | none => (false, c)
    | some duty_cycle =>
      (true,
        { c with
          servos := updateAssoc c.servos servo_id duty_cycle,
          servo_states := updateAssoc c.servo_states servo_id
            { speed := speed, is_running := decide (speed ≠ 0) } })

/-- Embeds `ServoController.stop_servo`. -/
def stop_servo (c : Controller) (servo_id : String) : Bool × Controller :=
  set_servo_speed c servo_id 0

/-- Loop of `stop_all_servos` over the registered ids. -/
def stopAllGo : List String → Bool × Controller → Bool × Controller
  | [], acc => acc
  | servo_id :: rest, acc =>
    let r := stop_servo acc.2 servo_id
    stopAllGo rest (acc.1 && r.1, r.2)

/-- Embeds `ServoController.stop_all_servos`: stops every registered servo, `True`
only if every individual stop succeeded. -/
def stop_all_servos (c : Controller) : Bool × Controller :=
  stopAllGo (c.servos.map Prod.fst) (true, c)

/-- Embeds `ServoController.emergency_stop`: sets the flag, then stops all servos
and returns the `stop_all_servos` result. -/
def emergency_stop (c : Controller) : Bool × Controller :=
  stop_all_servos { c with emergency_stop_active := true }

/-- Embeds `ServoController.clear_emergency_stop`: clears the flag, returns `True`. -/
def clear_emergency_stop (c : Controller) : Bool × Controller :=
  (true, { c with emergency_stop_active := false })

/-- Embeds `ServoController.get_servo_status`. -/
def get_servo_status (c : Controller) (servo_id : String) :
    Option ServoState :=
  lookupAssoc c.servo_states servo_id

/-- Embeds `ServoController.cleanup`: stops all servos then clears both dicts. -/
def cleanup (c : Controller) : Controller :=
  let r := stop_all_servos c
  { r.2 with servos := [], servo_states := [] }

end DumbArm

namespace DumbArm

/-- Closed form of `speed_to_duty_cycle` on in-range input: linear
interpolation on each side of zero (the `speed = 0` branch agrees with the
positive-side formula, which then returns exactly `CENTER_DUTY_CYCLE`). -/
lemma speed_to_duty_cycle_eq (s : ℚ) (h1 : -1 ≤ s) (h2 : s ≤ 1) :
    speed_to_duty_cycle s =
      some (if 0 ≤ s then CENTER_DUTY_CYCLE + s * (MAX_DUTY_CYCLE - CENTER_DUTY_CYCLE)
            else CENTER_DUTY_CYCLE + s * (CENTER_DUTY_CYCLE - MIN_DUTY_CYCLE)) := by
  unfold speed_to_duty_cycle
  rw [if_neg (not_not_intro ⟨h1, h2⟩)]
  by_cases h0 : s = 0
  · subst h0
    norm_num
  · rw [if_neg h0]
    rcases lt_or_gt_of_ne h0 with hneg | hpos
    · rw [if_neg (by exact not_lt.mpr hneg.le), if_neg (not_le.mpr hneg)]
    · rw [if_pos hpos, if_pos hpos.le]

/-- C5: for every speed in `[-1, 1]`, converting to a duty cycle and back
returns exactly the original speed (exact arithmetic); in particular
`speed_to_duty_cycle` never produces a duty cycle that
`duty_cycle_to_speed` rejects. -/
theorem C5_codec_roundtrip (s : ℚ) (h1 : -1 ≤ s) (h2 : s ≤ 1) :
    (speed_to_duty_cycle s).bind duty_cycle_to_speed = some s := by
  rw [speed_to_duty_cycle_eq s h1 h2]
  by_cases h0 : s = 0
  · subst h0
    norm_num [duty_cycle_to_speed, CENTER_DUTY_CYCLE, MIN_DUTY_CYCLE, MAX_DUTY_CYCLE]
  · rcases lt_or_gt_of_ne h0 with hneg | hpos
    · rw [if_neg (not_le.mpr hneg)]
      show duty_cycle_to_speed _ = some s
      unfold duty_cycle_to_speed CENTER_DUTY_CYCLE MIN_DUTY_CYCLE MAX_DUTY_CYCLE
      rw [if_neg (not_not_intro ⟨by nlinarith, by nlinarith⟩),
        if_neg (by intro h; nlinarith), if_neg (by intro h; nlinarith)]
      congr 1
      field_simp
      ring
    · rw [if_pos hpos.le]
      show duty_cycle_to_speed _ = some s
      unfold duty_cycle_to_speed CENTER_DUTY_CYCLE MIN_DUTY_CYCLE MAX_DUTY_CYCLE
      rw [if_neg (not_not_intro ⟨by nlinarith, by nlinarith⟩),
        if_neg (by intro h; nlinarith), if_pos (by nlinarith)]
      congr 1
      field_simp
      ring

/-- C5 witness at `s = 1/2`. -/
theorem C5_codec_roundtrip_witness :
    (speed_to_duty_cycle (1/2)).bind duty_cycle_to_speed = some (1/2) :=
  C5_codec_roundtrip (1/2) (by norm_num) (by norm_num)

/-- C6: `speed_to_duty_cycle` is non-decreasing on `[-1, 1]`, and every
value it returns there lies in `[MIN_DUTY_CYCLE, MAX_DUTY_CYCLE]`. -/
theorem C6_codec_monotone_bounded (s₁ s₂ d₁ d₂ : ℚ)
    (hlo : -1 ≤ s₁) (h12 : s₁ ≤ s₂) (hhi : s₂ ≤ 1)
    (e₁ : speed_to_duty_cycle s₁ = some d₁)
    (e₂ : speed_to_duty_cycle s₂ = some d₂) :
    d₁ ≤ d₂ ∧ MIN_DUTY_CYCLE ≤ d₁ ∧ d₁ ≤ MAX_DUTY_CYCLE ∧
      MIN_DUTY_CYCLE ≤ d₂ ∧ d₂ ≤ MAX_DUTY_CYCLE := by
  rw [speed_to_duty_cycle_eq s₁ hlo (h12.trans hhi)] at e₁
  rw [speed_to_duty_cycle_eq s₂ (hlo.trans h12) hhi] at e₂
  obtain rfl : _ = d₁ := Option.some.inj e₁
  obtain rfl : _ = d₂ := Option.some.inj e₂
  unfold CENTER_DUTY_CYCLE MIN_DUTY_CYCLE MAX_DUTY_CYCLE
  by_cases hs1 : 0 ≤ s₁ <;> by_cases hs2 : 0 ≤ s₂
  · rw [if_pos hs1, if_pos hs2]
    exact ⟨by nlinarith, by nlinarith, by nlinarith, by nlinarith, by nlinarith⟩
  · exact absurd (hs1.trans h12) hs2
  · rw [if_neg hs1, if_pos hs2]
    exact ⟨by nlinarith, by nlinarith, by nlinarith, by nlinarith, by nlinarith⟩
  · rw [if_neg hs1, if_neg hs2]
    exact ⟨by nlinarith, by nlinarith, by nlinarith, by nlinarith, by nlinarith⟩

/-- C6 witness at `s₁ = -1/2 ≤ s₂ = 1/2`. -/
theorem C6_codec_monotone_bounded_witness :
    (299/5000 : ℚ) ≤ 53/625 ∧ MIN_DUTY_CYCLE ≤ (299/5000 : ℚ) ∧
      (299/5000 : ℚ) ≤ MAX_DUTY_CYCLE ∧ MIN_DUTY_CYCLE ≤ (53/625 : ℚ) ∧
      (53/625 : ℚ) ≤ MAX_DUTY_CYCLE :=
  C6_codec_monotone_bounded (-1/2) (1/2) (299/5000) (53/625)
    (by norm_num) (by norm_num) (by norm_num)
    (by norm_num [speed_to_duty_cycle, CENTER_DUTY_CYCLE, MIN_DUTY_CYCLE, MAX_DUTY_CYCLE])
    (by norm_num [speed_to_duty_cycle, CENTER_DUTY_CYCLE, MIN_DUTY_CYCLE, MAX_DUTY_CYCLE])

/-- C7: `speed_to_duty_cycle` fails (raises `ValueError`, embedded as
`none`) exactly on speeds outside `[-1, 1]`, and `duty_cycle_to_speed`
fails exactly on duty cycles outside `[MIN_DUTY_CYCLE, MAX_DUTY_CYCLE]`. -/
theorem C7_codec_rejects_iff_out_of_range (s d : ℚ) :
    (speed_to_duty_cycle s = none ↔ ¬(-1 ≤ s ∧ s ≤ 1)) ∧
      (duty_cycle_to_speed d = none ↔
        ¬(MIN_DUTY_CYCLE ≤ d ∧ d ≤ MAX_DUTY_CYCLE)) := by
  constructor
  · unfold speed_to_duty_cycle
    split_ifs <;> simp_all
  · unfold duty_cycle_to_speed
    split_ifs <;> simp_all

end DumbArm

namespace DumbArm

/-- Operation `set_servo_speed` never changes the emergency-stop flag. -/
lemma set_servo_speed_flag (c : Controller) (servo_id : String) (s : ℚ) :
    (set_servo_speed c servo_id s).2.emergency_stop_active =
      c.emergency_stop_active := by
  unfold set_servo_speed
  split_ifs
  · rfl
  · rfl
  · cases speed_to_duty_cycle s <;> rfl

/-- Operation `set_servo_speed` never changes the set of registered ids. -/
lemma set_servo_speed_keys (c : Controller) (servo_id : String) (s : ℚ) :
    (set_servo_speed c servo_id s).2.servos.map Prod.fst =
      c.servos.map Prod.fst := by
  unfold set_servo_speed
  split_ifs
  · rfl
  · rfl
  · cases speed_to_duty_cycle s with
    | none => rfl
    | some d =>
      simp only [updateAssoc, List.map_map]
      refine List.map_congr_left fun p _ => ?_
      by_cases hp : p.1 = servo_id <;> simp [hp]

/-- While the flag is set, `set_servo_speed` is refused before touching
anything: it returns `False` with the state unchanged. -/
lemma set_servo_speed_flagged (c : Controller) (servo_id : String) (s : ℚ)
    (h : c.emergency_stop_active = true) :
    set_servo_speed c servo_id s = (false, c) := by
  unfold set_servo_speed
  rw [if_pos h]

/-- While the flag is set, the `stop_all_servos` loop leaves the state
unchanged and aggregates to `False` as soon as one servo is registered. -/
lemma stopAllGo_flagged (c : Controller) (l : List String) (b : Bool)
    (h : c.emergency_stop_active = true) :
    stopAllGo l (b, c) = (b && l.isEmpty, c) := by
  induction l generalizing b with
  | nil => simp [stopAllGo]
  | cons x rest ih =>
    simp [stopAllGo, stop_servo, set_servo_speed_flagged c x 0 h, ih]

/-- Mapping a function over a list keeps emptiness. -/
lemma isEmpty_map {α β : Type} (f : α → β) (l : List α) :
    (l.map f).isEmpty = l.isEmpty := by
  cases l <;> rfl

/-- Control-flow of `emergency_stop`: the flag is set first, so every
per-servo stop inside `stop_all_servos` is refused by the interlock in
`set_servo_speed`; the state change is exactly the flag, and the returned
bool is `True` only for an empty registry. -/
lemma emergency_stop_eq (c : Controller) :
    emergency_stop c =
      (c.servos.isEmpty, { c with emergency_stop_active := true }) := by
  unfold emergency_stop stop_all_servos
  rw [stopAllGo_flagged _ _ _ rfl, Bool.true_and, isEmpty_map]

end DumbArm

namespace DumbArm

/-- What the `initialize_servos` loop does: it registers, in configuration
order, exactly the prefix of servos up to (excluding) the first whose
construction fails, and reports success iff none fails. -/
lemma initializeGo_spec (ok : String → Nat → Bool) (l : List ServoConfig)
    (c : Controller) :
    initializeGo ok l c =
      (l.all fun p => ok p.1 p.2,
        { c with
          servos := c.servos ++
            ((l.takeWhile fun p => ok p.1 p.2).map
              fun p => (p.1, CENTER_DUTY_CYCLE)),
          servo_states := c.servo_states ++
            ((l.takeWhile fun p => ok p.1 p.2).map
              fun p => (p.1, ({} : ServoState))) }) := by
  induction l generalizing c with
  | nil => simp [initializeGo]
  | cons p rest ih =>
    obtain ⟨servo_id, pin⟩ := p
    by_cases hp : ok servo_id pin
    · simp [initializeGo, hp, ih, List.takeWhile_cons]
    · simp [initializeGo, hp, List.takeWhile_cons]

/-- C4 counterexample: with servos `base` (pin 17) and `gripper` (pin 27)
configured and the `gripper` PWM construction failing, `initialize_servos`
reports failure but leaves `base` registered — a partial registry, not an
empty one. -/
theorem C4_partial_registry_on_failure :
    (initialize_servos [("base", 17), ("gripper", 27)]
        (fun servo_id _ => servo_id == "base") {}).1 = false ∧
    (initialize_servos [("base", 17), ("gripper", 27)]
        (fun servo_id _ => servo_id == "base") {}).2.servos =
      [("base", CENTER_DUTY_CYCLE)] := by
  constructor <;> rfl

/-- C4 (amended): `initialize_servos` returns `True` iff at least one servo
is configured and every configured servo constructs; the registry it leaves
holds exactly the configured servos up to (excluding) the first construction
failure, each registered at the center duty cycle with a default (stopped)
runtime state. -/
theorem C4_initialize_fail_fast_partial (configs : List ServoConfig)
    (ok : String → Nat → Bool) (c : Controller) :
    (initialize_servos configs ok c).1 =
      (!configs.isEmpty && configs.all fun p => ok p.1 p.2) ∧
    (initialize_servos configs ok c).2.servos =
      ((configs.takeWhile fun p => ok p.1 p.2).map
        fun p => (p.1, CENTER_DUTY_CYCLE)) ∧
    (initialize_servos configs ok c).2.servo_states =
      ((configs.takeWhile fun p => ok p.1 p.2).map
        fun p => (p.1, ({} : ServoState))) := by
  unfold initialize_servos
  cases configs with
  | nil => simp
  | cons p rest =>
    simp [initializeGo_spec]

/-- C1 (failing input): one servo `base` registered and running at speed
1/2 when `emergency_stop()` is called; afterwards the flag is set but the
servo's runtime state still shows `speed = 1/2`, `is_running = true`, so
neither `is_running = false` for every servo nor `speed = 0` under a set
flag holds. -/
theorem C1_emergency_stop_leaves_servo_running :
    (emergency_stop
        { servos := [("base", 53/625)],
          servo_states := [("base", { speed := 1/2, is_running := true })],
          emergency_stop_active := false }).2.emergency_stop_active = true ∧
    get_servo_status
        (emergency_stop
          { servos := [("base", 53/625)],
            servo_states := [("base", { speed := 1/2, is_running := true })],
            emergency_stop_active := false }).2 "base" =
      some { speed := 1/2, is_running := true } := by
  constructor <;> rfl

/-- C2 (failing input): one servo `gripper` registered with its PWM output
at duty 2/25; `emergency_stop()` returns `False` and the output is never
commanded to the stop duty cycle — the interlock flag, set first, makes
`set_servo_speed` refuse every per-servo stop before it touches the
device. -/
theorem C2_emergency_stop_attempts_no_stop :
    emergency_stop
        { servos := [("gripper", 2/25)],
          servo_states := [("gripper", { speed := 1/3, is_running := true })],
          emergency_stop_active := false } =
      (false,
        { servos := [("gripper", 2/25)],
          servo_states := [("gripper", { speed := 1/3, is_running := true })],
          emergency_stop_active := true }) := by
  rfl

/-- C3: while the emergency-stop flag is set, `set_servo_speed` with a
nonzero speed fails and returns the controller state unchanged (registry,
every servo's state, and the flag included), for any id. -/
theorem C3_interlock_blocks_set_speed (c : Controller) (servo_id : String)
    (s : ℚ) (hflag : c.emergency_stop_active = true) (_hs : s ≠ 0) :
    set_servo_speed c servo_id s = (false, c) :=
  set_servo_speed_flagged c servo_id s hflag

/-- C3 witness: a flagged one-servo controller refuses speed 1/2. -/
theorem C3_interlock_blocks_set_speed_witness :
    set_servo_speed
        { servos := [("base", 87/1250)],
          servo_states := [("base", { speed := 0, is_running := false })],
          emergency_stop_active := true } "base" (1/2) =
      (false,
        { servos := [("base", 87/1250)],
          servo_states := [("base", { speed := 0, is_running := false })],
          emergency_stop_active := true }) :=
  C3_interlock_blocks_set_speed _ "base" (1/2) rfl (by norm_num)

/-- C10: whatever the prior state, `emergency_stop` returns with the flag
set (it is set before the stop attempts and never rolled back, even though
the stops fail), and any subsequent `set_servo_speed` is refused with the
state unchanged. -/
theorem C10_flag_engaged_despite_failure (c : Controller) (servo_id : String)
    (s : ℚ) :
    (emergency_stop c).2.emergency_stop_active = true ∧
    set_servo_speed (emergency_stop c).2 servo_id s =
      (false, (emergency_stop c).2) := by
  rw [emergency_stop_eq]
  exact ⟨rfl, set_servo_speed_flagged _ _ _ rfl⟩

end DumbArm

namespace DumbArm

/-- The spec invariant on runtime states: a registered servo's speed is
zero exactly when it is not running. -/
def SpeedRunningInv (c : Controller) : Prop :=
  ∀ p ∈ c.servo_states, (p.2.speed = 0 ↔ p.2.is_running = false)

instance (c : Controller) : Decidable (SpeedRunningInv c) :=
  List.decidableBAll _ c.servo_states

/-- Operation `set_servo_speed` preserves the speed/running invariant: when it
updates a state it writes `is_running := (speed != 0.0)`. -/
lemma set_servo_speed_inv (c : Controller) (servo_id : String) (s : ℚ)
    (h : SpeedRunningInv c) : SpeedRunningInv (set_servo_speed c servo_id s).2 := by
  unfold set_servo_speed
  split_ifs
  · exact h
  · exact h
  · cases hd : speed_to_duty_cycle s with
    | none => exact h
    | some d =>
      intro p hp
      simp only [updateAssoc, List.mem_map] at hp
      obtain ⟨q, hq, rfl⟩ := hp
      by_cases hk : q.1 = servo_id
      · rw [if_pos hk]
        by_cases hzero : s = 0 <;> simp [hzero]
      · rw [if_neg hk]
        exact h q hq

/-- The `stop_all_servos` loop preserves the speed/running invariant. -/
lemma stopAllGo_inv (l : List String) (b : Bool) (c : Controller)
    (h : SpeedRunningInv c) : SpeedRunningInv (stopAllGo l (b, c)).2 := by
  induction l generalizing b c with
  | nil => exact h
  | cons x rest ih =>
    simp only [stopAllGo, stop_servo]
    exact ih _ _ (set_servo_speed_inv _ _ _ h)

/-- Operation `stop_all_servos` preserves the speed/running invariant. -/
lemma stop_all_servos_inv (c : Controller) (h : SpeedRunningInv c) :
    SpeedRunningInv (stop_all_servos c).2 :=
  stopAllGo_inv _ _ _ h

/-- The state `initialize_servos` leaves satisfies the speed/running
invariant: every registered servo starts at `speed = 0`, not running. -/
lemma initialize_servos_inv (configs : List ServoConfig)
    (ok : String → Nat → Bool) (c : Controller) :
    SpeedRunningInv (initialize_servos configs ok c).2 := by
  unfold initialize_servos
  split_ifs
  · intro p hp
    simp at hp
  · rw [initializeGo_spec]
    intro p hp
    simp only [List.nil_append, List.mem_map] at hp
    obtain ⟨q, hq, rfl⟩ := hp
    simp [ServoState.speed, ServoState.is_running]

/-- C8: every public controller operation preserves the invariant that a
registered servo's `speed` is `0.0` iff its `is_running` is `false`, and
`initialize_servos` establishes it. -/
theorem C8_speed_iff_running_invariant (c : Controller) (h : SpeedRunningInv c)
    (configs : List ServoConfig) (ok : String → Nat → Bool)
    (servo_id : String) (s : ℚ) :
    SpeedRunningInv (initialize_servos configs ok c).2 ∧
    SpeedRunningInv (set_servo_speed c servo_id s).2 ∧
    SpeedRunningInv (stop_servo c servo_id).2 ∧
    SpeedRunningInv (stop_all_servos c).2 ∧
    SpeedRunningInv (emergency_stop c).2 ∧
    SpeedRunningInv (clear_emergency_stop c).2 ∧
    SpeedRunningInv (cleanup c) := by
  refine ⟨initialize_servos_inv configs ok c,
    set_servo_speed_inv c servo_id s h,
    set_servo_speed_inv c servo_id 0 h,
    stop_all_servos_inv c h,
    stop_all_servos_inv _ h,
    h, ?_⟩
  intro p hp
  simp only [cleanup] at hp
  simp at hp

/-- C8 witness: a controller with one running servo at speed 1/2 satisfies
the hypotheses, and setting speed 1/2 on it preserves the invariant. -/
theorem C8_speed_iff_running_invariant_witness :
    SpeedRunningInv
      (set_servo_speed
        { servos := [("base", 53/625)],
          servo_states := [("base", { speed := 1/2, is_running := true })],
          emergency_stop_active := false } "base" (1/2)).2 :=
  (C8_speed_iff_running_invariant _ (by simp [SpeedRunningInv])
    [] (fun _ _ => true) "base" (1/2)).2.1

/-- The `stop_all_servos` loop never changes the emergency-stop flag. -/
lemma stopAllGo_flag (l : List String) (b : Bool) (c : Controller) :
    (stopAllGo l (b, c)).2.emergency_stop_active = c.emergency_stop_active := by
  induction l generalizing b c with
  | nil => rfl
  | cons x rest ih =>
    simp only [stopAllGo, stop_servo]
    rw [ih, set_servo_speed_flag]

/-- C9: a set emergency-stop flag stays set across every controller
operation other than `clear_emergency_stop`. -/
theorem C9_flag_cleared_only_explicitly (c : Controller)
    (h : c.emergency_stop_active = true) (configs : List ServoConfig)
    (ok : String → Nat → Bool) (servo_id : String) (s : ℚ) :
    (initialize_servos configs ok c).2.emergency_stop_active = true ∧
    (set_servo_speed c servo_id s).2.emergency_stop_active = true ∧
    (stop_servo c servo_id).2.emergency_stop_active = true ∧
    (stop_all_servos c).2.emergency_stop_active = true ∧
    (emergency_stop c).2.emergency_stop_active = true ∧
    (cleanup c).emergency_stop_active = true := by
  refine ⟨?_, ?_, ?_, ?_, ?_, ?_⟩
  · unfold initialize_servos
    split_ifs
    · exact h
    · rw [initializeGo_spec]
      exact h
  · rw [set_servo_speed_flag]
    exact h
  · rw [stop_servo, set_servo_speed_flag]
    exact h
  · rw [stop_all_servos, stopAllGo_flag]
    exact h
  · rw [emergency_stop_eq]
  · simp only [cleanup]
    rw [stop_all_servos, stopAllGo_flag]
    exact h

/-- C9 witness: on a flagged one-servo controller, `stop_all_servos`
leaves the flag set. -/
theorem C9_flag_cleared_only_explicitly_witness :
    (stop_all_servos
      { servos := [("base", 53/625)],
        servo_states := [("base", { speed := 0, is_running := false })],
        emergency_stop_active := true }).2.emergency_stop_active = true :=
  (C9_flag_cleared_only_explicitly _ rfl [] (fun _ _ => true)
    "base" (1/2)).2.2.2.1

end DumbArm
